import Mathlib

/-!
Verification development for the AURORA inference pipeline
(brainles_aurora/inferer/inferer.py and the legacy brainles_aurora/inferer.py).

The Python pipeline is shallowly embedded: tensors become functions out of
finite index types with exact rational/real scalars, stateful methods become
explicit state-passing functions, and fallible operations return Except.
Randomness (the Gaussian noise drawn by test-time augmentation) is modelled as
an oracle stream of already-noised volumes, indexed by the augmentation round.
-/

namespace Aurora

/-- Modelled from the spec: the input/output representation enum
referenced from brainles_aurora.inferer.constants as DataMode
(the constants module itself is not part of the sources).
NIFTI_FILE is the on-disk volume representation, NUMPY the in-memory one. -/
inductive DataMode where
  | NIFTI_FILE
  | NUMPY
deriving DecidableEq, Repr

/-- Modelled from the spec: the output-key enum referenced from
brainles_aurora.inferer.constants as Output (the constants module itself is
not part of the sources); keys of the post-processed data dictionary. -/
inductive Output where
  | SEGMENTATION
  | WHOLE_NETWORK
  | METASTASIS_NETWORK
deriving DecidableEq, Repr

/-- A 5-D tensor of scalars indexed batch × channel × height × width × depth,
the shape handled by AuroraInferer._sliding_window_inference (batch size 1). -/
abbrev Tensor5 (b c h w d : ℕ) (K : Type) :=
  Fin b → Fin c → Fin h → Fin w → Fin d → K

/-- A 3-D spatial volume, the shape of the post-processed masks. -/
abbrev SpatialVol (h w d : ℕ) (K : Type) := Fin h → Fin w → Fin d → K

/-- Embedding of torch.flip along a single dimension of a 5-D tensor
(dim numbering follows torch: 0 = batch, 1 = channel, 2, 3, 4 = spatial). -/
def flipDim {b c h w d : ℕ} {K : Type} (dim : ℕ) (v : Tensor5 b c h w d K) :
    Tensor5 b c h w d K :=
  fun bi ci hi wi di =>
    match dim with
    | 0 => v (Fin.rev bi) ci hi wi di
    | 1 => v bi (Fin.rev ci) hi wi di
    | 2 => v bi ci (Fin.rev hi) wi di
    | 3 => v bi ci hi (Fin.rev wi) di
    | 4 => v bi ci hi wi (Fin.rev di)
    | _ => v bi ci hi wi di

/-- Embedding of torch.flip(v, dims): flip along each listed dimension once. -/
def flipDims {b c h w d : ℕ} {K : Type} (dims : List ℕ) (v : Tensor5 b c h w d K) :
    Tensor5 b c h w d K :=
  dims.foldl (fun t dm => flipDim dm t) v

/-- Pointwise division of a tensor by a scalar, the final `outputs / n` of
AuroraInferer._apply_test_time_augmentations. -/
def scalarDiv {b c h w d : ℕ} {K : Type} [Field K] (v : Tensor5 b c h w d K)
    (n : K) : Tensor5 b c h w d K :=
  fun bi ci hi wi di => v bi ci hi wi di / n

/-- One iteration of the `for _ in range(4)` loop of
AuroraInferer._apply_test_time_augmentations: accumulate the pass on the
noised volume `img`, then for dims [2] and [3] the pass on the flipped noised
volume, flipped back before accumulating; `acc` carries (outputs, n). -/
def ttaRound {b c c2 h w d : ℕ} {K : Type} [Field K]
    (run : Tensor5 b c h w d K → Tensor5 b c2 h w d K)
    (img : Tensor5 b c h w d K)
    (acc : Tensor5 b c2 h w d K × K) : Tensor5 b c2 h w d K × K :=
  let acc1 := (acc.1 + run img, acc.2 + 1)
  List.foldl
    (fun a dims =>
      let flip_pred := run (flipDims dims img)
      let output := flipDims dims flip_pred
      (a.1 + output, a.2 + 1))
    acc1 ([[2], [3]] : List (List ℕ))

/-- The accumulation loop of AuroraInferer._apply_test_time_augmentations:
starting from the initial pass `outputs` and n = 1, run 4 augmentation rounds;
`noisy k` is the freshly noised volume drawn in round k (the Gaussian noise
oracle). Returns the accumulated outputs together with the final n. -/
def ttaFold {b c c2 h w d : ℕ} {K : Type} [Field K]
    (run : Tensor5 b c h w d K → Tensor5 b c2 h w d K)
    (noisy : ℕ → Tensor5 b c h w d K)
    (outputs : Tensor5 b c2 h w d K) : Tensor5 b c2 h w d K × K :=
  List.foldl (fun acc k => ttaRound run (noisy k) acc) (outputs, 1) (List.range 4)

/-- Embedding of AuroraInferer._apply_test_time_augmentations: the
accumulated ensemble divided by the member count n. -/
def applyTestTimeAugmentations {b c c2 h w d : ℕ} {K : Type} [Field K]
    (run : Tensor5 b c h w d K → Tensor5 b c2 h w d K)
    (noisy : ℕ → Tensor5 b c h w d K)
    (outputs : Tensor5 b c2 h w d K) : Tensor5 b c2 h w d K :=
  let f := ttaFold run noisy outputs
  scalarDiv f.1 f.2

/-- The logistic activation applied by `.sigmoid()` in
AuroraInferer._post_process. -/
noncomputable def sigmoid (x : ℝ) : ℝ := 1 / (1 + Real.exp (-x))

/-- The label-merging step of AuroraInferer._post_process:
final_seg starts as a copy of the whole mask, voxels where the whole mask is 1
are written 1 (edema) and voxels where the enhancing mask is 1 are then
overwritten with 2 (enhancing); the last write wins. -/
def mergeSegmentation {h w d : ℕ} (whole_metastasis enhancing_metastasis : SpatialVol h w d ℕ) :
    SpatialVol h w d ℕ :=
  fun hi wi di =>
    let seg0 := whole_metastasis hi wi di
    let seg1 := if whole_metastasis hi wi di = 1 then 1 else seg0
    if enhancing_metastasis hi wi di = 1 then 2 else seg1

/-- The dictionary returned by AuroraInferer._post_process: the merged
segmentation plus the two binarized network outputs. -/
structure PostprocData (h w d : ℕ) where
  segmentation : SpatialVol h w d ℕ
  whole_network : SpatialVol h w d ℕ
  metastasis_network : SpatialVol h w d ℕ

/-- Embedding of AuroraInferer._post_process: index batch 0 of the model
outputs, apply sigmoid elementwise, binarize each class at the threshold
(value ≥ threshold becomes 1, else 0), and merge whole/enhancing masks. -/
noncomputable def postProcess {h w d : ℕ} (threshold : ℝ)
    (onehot_model_outputs_CHWD : Tensor5 1 2 h w d ℝ) : PostprocData h w d :=
  let activated_outputs := fun (ci : Fin 2) (hi : Fin h) (wi : Fin w) (di : Fin d) =>
    sigmoid (onehot_model_outputs_CHWD 0 ci hi wi di)
  let binarized_outputs := fun (ci : Fin 2) (hi : Fin h) (wi : Fin w) (di : Fin d) =>
    if threshold ≤ activated_outputs ci hi wi di then (1 : ℕ) else 0
  let whole_metastasis := binarized_outputs 0
  let enhancing_metastasis := binarized_outputs 1
  { segmentation := mergeSegmentation whole_metastasis enhancing_metastasis
    whole_network := binarized_outputs 0
    metastasis_network := binarized_outputs 1 }

/-- Modelled from the spec: the AuroraInfererConfig dataclass (the dataclasses
module itself is not part of the sources); field names and defaults follow the
fields the inferer reads and the matching keyword defaults of the legacy
brainles_aurora/inferer.py constructor (tta true, threshold 0.5, overlap 0.5,
crop (192, 192, 32), batch 1, workers 0). -/
structure AuroraInfererConfig where
  tta : Bool
  sliding_window_batch_size : ℕ
  workers : ℕ
  threshold : ℝ
  sliding_window_overlap : ℝ
  crop_size : ℕ × ℕ × ℕ
  model_selection : String
  output_mode : DataMode
  include_whole_network_in_numpy_output_mode : Bool
  include_metastasis_network_in_numpy_output_mode : Bool

/-- The per-batch body of AuroraInferer._sliding_window_inference: run the
sliding-window forward pass (`run` stands for inferer(·, self.model)), apply
test-time augmentation when cfg.tta is set, and post-process. `noisy` is the
noise oracle consumed by the augmentation rounds. -/
noncomputable def slidingWindowInferenceStep {c h w d : ℕ} (cfg : AuroraInfererConfig)
    (run : Tensor5 1 c h w d ℝ → Tensor5 1 2 h w d ℝ)
    (noisy : ℕ → Tensor5 1 c h w d ℝ)
    (inputs : Tensor5 1 c h w d ℝ) : PostprocData h w d :=
  let outputs := run inputs
  let outputs := if cfg.tta then applyTestTimeAugmentations run noisy outputs else outputs
  postProcess cfg.threshold outputs

/-- The cross-call state of one AuroraInferer instance that the model cache in
AuroraInferer.infer reads and writes: the currently resolved inference mode,
the cached model handle, and (as instrumentation) how many weight loads have
happened so far. A handle is identified by the sequence number of the load
that produced it, so reuse versus reload is observable. -/
structure InfererModelState (M : Type) where
  inference_mode : Option M
  model : Option ℕ
  load_count : ℕ
deriving DecidableEq, Repr

/-- The mode-resolution/caching step of AuroraInferer.infer: remember the
previous mode, store the newly resolved mode, and reload the model exactly
when the previous mode differs from the new one. -/
def inferModelStep {M : Type} [DecidableEq M] (s : InfererModelState M)
    (mode : M) : InfererModelState M :=
  let prev_mode := s.inference_mode
  if prev_mode ≠ some mode then
    { inference_mode := some mode
      model := some (s.load_count + 1)
      load_count := s.load_count + 1 }
  else
    { s with inference_mode := some mode }

/-- The four MRI channels in the fixed order T1, T1C, T2, FLAIR. -/
inductive Channel where
  | t1
  | t1c
  | t2
  | fla
deriving DecidableEq, Repr

/-- Which of the four channels were supplied to an infer call. -/
structure ChannelPresence where
  t1 : Bool
  t1c : Bool
  t2 : Bool
  fla : Bool
deriving DecidableEq, Repr

/-- Embedding of AuroraInferer._get_not_none_files: the supplied channels in
the fixed order T1, T1C, T2, FLAIR. -/
def getNotNoneFiles (p : ChannelPresence) : List Channel :=
  (if p.t1 then [Channel.t1] else []) ++
  (if p.t1c then [Channel.t1c] else []) ++
  (if p.t2 then [Channel.t2] else []) ++
  (if p.fla then [Channel.fla] else [])

/-- The reference-channel choice of the current AuroraInferer._save_as_nifti:
reference_file = self._get_not_none_files()[0], the first supplied channel
(none models the IndexError on an empty list, ruled out by validation). -/
def referenceChannelCurrent (p : ChannelPresence) : Option Channel :=
  (getNotNoneFiles p).head?

/-- The reference-channel choice of the legacy GPUInferer._infer and
CPUInferer._infer try/except chain: data has a key only for supplied
channels, so the chain resolves T1C if supplied, else FLAIR, else T1 (none
models the uncaught KeyError when none of the three is supplied). -/
def referenceChannelLegacy (p : ChannelPresence) : Option Channel :=
  if p.t1c then some Channel.t1c
  else if p.fla then some Channel.fla
  else if p.t1 then some Channel.t1
  else none

/-- Modelled from the spec: the reference-channel priority exactly as the
specification words it, "T1C if present, else FLAIR, else T1", to be compared
with the two source implementations. -/
def referenceChannelSpec (p : ChannelPresence) : Option Channel :=
  if p.t1c then some Channel.t1c
  else if p.fla then some Channel.fla
  else if p.t1 then some Channel.t1
  else none

/-- A float32 array cell as seen by the preprocessing transforms: NaN, one of
the two infinities, or a finite value (modelled as an exact rational). -/
inductive NpValue where
  | nan
  | posinf
  | neginf
  | finite (x : ℚ)
deriving DecidableEq, Repr

/-- The largest finite float32 value, (2 - 2 ^ (-23)) * 2 ^ 127. -/
def float32Max : ℚ := 2 ^ 128 - 2 ^ 104

/-- Embedding of np.nan_to_num with default arguments on float32 data, the
Lambdad transform of AuroraInferer._get_data_loader: NaN becomes 0.0, +inf
the largest finite float32 value, -inf the lowest finite float32 value, and
finite values pass through unchanged. -/
def nanToNum : NpValue → ℚ
  | NpValue.nan => 0
  | NpValue.posinf => float32Max
  | NpValue.neginf => -float32Max
  | NpValue.finite x => x

/-- Whether a cell holds a finite value. -/
def isFiniteValue : NpValue → Bool
  | NpValue.finite _ => true
  | _ => false

/-- The transform order of AuroraInferer._get_data_loader around the
non-finite handling: the Lambdad(np.nan_to_num) transform runs first, then
ScaleIntensityRangePercentilesd (kept opaque as `rescale`) runs on its
output. -/
def preprocessTransforms (rescale : List ℚ → List ℚ) (vals : List NpValue) : List ℚ :=
  rescale (vals.map nanToNum)

/-- The Python exceptions the embedded fragments can raise. -/
inductive PyError where
  | notImplementedError (msg : String)
  | attributeError (attr : String)
  | fileNotFoundError (msg : String)
deriving DecidableEq, Repr

/-- The instance attributes ever assigned on an AuroraInferer (or its bases
AbstractInferer and subclass AuroraGPUInferer); Python attribute lookup on
any other name raises AttributeError. -/
def auroraInfererAttrs : List String :=
  ["config", "dual_stderr_output", "log", "lib_path", "model_weights_folder",
   "device", "validated_images", "inference_mode", "input_mode", "model",
   "data_loader", "output_file_mapping", "cuda_devices"]

/-- Python attribute lookup self.<name>: the attribute name if it was
assigned, AttributeError otherwise. -/
def getattrSelf (attrs : List String) (name : String) : Except PyError String :=
  if name ∈ attrs then Except.ok name else Except.error (PyError.attributeError name)

/-- The weight-loading branch of AuroraInferer._get_model: when the weights
file exists the model loads; when it does not, the raise statement first
evaluates its f-string, which reads self.mode — so the attribute lookup
happens before NotImplementedError can be constructed. -/
def getModelLoad (attrs : List String) (weights_path_exists : Bool) : Except PyError Unit :=
  if weights_path_exists then Except.ok ()
  else
    match getattrSelf attrs "mode" with
    | Except.error e => Except.error e
    | Except.ok m =>
        Except.error (PyError.notImplementedError
          ("No weights found for model " ++ m ++ " and selection"))

/-- Embedding of os.path.dirname for the paths the inferer builds: the text
before the last slash, or the empty string when the path has no slash (so
dirname of "." and of a bare filename is ""). -/
def pyDirname (p : String) : String :=
  let cs := p.toList
  if cs.contains '/' then
    String.mk ((cs.reverse.dropWhile (fun ch => ch ≠ '/')).reverse.dropLast)
  else ""

/-- Embedding of os.makedirs(p, exist_ok=True) on a writable working
directory: succeeds for nonempty relative paths, but raises FileNotFoundError
for the empty path (os.mkdir of "" is ENOENT even with exist_ok). -/
def osMakedirs (p : String) : Except PyError Unit :=
  if p = "" then Except.error (PyError.fileNotFoundError p) else Except.ok ()

/-- Embedding of pathlib.Path(p).with_suffix(".log"): replace the last
extension (the text after the last dot) with .log, or append .log when the
name has no dot. -/
def withSuffixLog (p : String) : String :=
  let cs := p.toList
  if cs.contains '.' then
    String.mk ((cs.reverse.dropWhile (fun ch => ch ≠ '.')).reverse.dropLast) ++ ".log"
  else p ++ ".log"

/-- Embedding of AbstractInferer._setup_logger: with no log file it only
builds the stream logger; with a log file it first runs
os.makedirs(os.path.dirname(log_file), exist_ok=True), whose failure
propagates (there is no exception handling around it). -/
def setupLogger (log_file : Option String) : Except PyError Unit :=
  match log_file with
  | none => Except.ok ()
  | some f => osMakedirs (pyDirname f)

/-- The output-path bookkeeping an infer call performs before inference. -/
structure InferOutputSetup where
  warnings : List String
  segmentation_target : Option String
deriving DecidableEq, Repr

/-- The entry of AuroraInferer.infer up to the output-file mapping: the
per-run log path is Path(segmentation_file).with_suffix(".log") when a
segmentation file was supplied and the literal "." otherwise, and
_setup_logger is always called with that path; only afterwards, in NIFTI
output mode, a missing segmentation file name falls back to the default
"segmentation.nii.gz" with a warning. -/
def inferCall (output_mode : DataMode) (segmentation_file : Option String) :
    Except PyError InferOutputSetup :=
  let log_path : String :=
    match segmentation_file with
    | some f => withSuffixLog f
    | none => "."
  match setupLogger (some log_path) with
  | Except.error e => Except.error e
  | Except.ok _ =>
      if output_mode = DataMode.NIFTI_FILE then
        match segmentation_file with
        | none =>
            Except.ok
              { warnings := ["No segmentation file name provided, using default"]
                segmentation_target := some "segmentation.nii.gz" }
        | some f => Except.ok { warnings := [], segmentation_target := some f }
      else Except.ok { warnings := [], segmentation_target := none }

/-- Embedding of np.eye(4), the affine used for NumPy input. -/
def npEye4 : Matrix (Fin 4) (Fin 4) ℚ :=
  Matrix.of fun i j => if i = j then 1 else 0

/-- A written nib.Nifti1Image: voxel data plus the affine and optional header
it was constructed with. -/
structure Nifti1Image (D : Type) where
  data : D
  affine : Matrix (Fin 4) (Fin 4) ℚ
  header : Option String

/-- The value of AuroraInferer._save_as_nifti: the files written (path and
image) and the warnings logged. -/
structure SaveNiftiResult (D : Type) where
  written : List (String × Nifti1Image D)
  warnings : List String

/-- Embedding of AuroraInferer._save_as_nifti: with NIFTI_FILE input the
affine and header come from the reference channel file (passed in as
refGeometry); with NumPy input a warning is logged and the defaults
np.eye(4) and no header are used. Every requested output key is then written
with that same affine/header pair. -/
def saveAsNifti {D : Type} (input_mode : DataMode)
    (refGeometry : Matrix (Fin 4) (Fin 4) ℚ × Option String)
    (postproc_data : List (Output × D))
    (output_file_mapping : Output → Option String) : SaveNiftiResult D :=
  let geom :=
    match input_mode with
    | DataMode.NIFTI_FILE => (refGeometry, ([] : List String))
    | DataMode.NUMPY =>
        ((npEye4, (none : Option String)),
         ["Writing NIFTI output after NumPy input, using default affine=np.eye(4) and header=None"])
  let affine := geom.1.1
  let header := geom.1.2
  { written :=
      postproc_data.filterMap (fun kd =>
        match output_file_mapping kd.1 with
        | some output_file =>
            some (output_file, { data := kd.2, affine := affine, header := header })
        | none => none)
    warnings := geom.2 }

/-- The all-zero 5-D tensor, used as a concrete test volume. -/
def zeroTensor {b c h w d : ℕ} : Tensor5 b c h w d ℝ := fun _ _ _ _ _ => 0

/-- A mock forward pass over a four-channel input returning the constant
wholeVal on output class 0 and enhVal on output class 1, as in the spec's
constant-output scenario. -/
def mockConstForward (wholeVal enhVal : ℝ) :
    Tensor5 1 4 1 1 1 ℝ → Tensor5 1 2 1 1 1 ℝ :=
  fun _ => fun _ ci _ _ _ => if ci = 0 then wholeVal else enhVal

/-- The default configuration of the inferer with test-time augmentation
turned off: threshold 0.5, overlap 0.5, crop (192, 192, 32), batch 1,
workers 0, NumPy output. -/
noncomputable def testConfigNoTTA : AuroraInfererConfig :=
  { tta := false
    sliding_window_batch_size := 1
    workers := 0
    threshold := 0.5
    sliding_window_overlap := 0.5
    crop_size := (192, 192, 32)
    model_selection := "best"
    output_mode := DataMode.NUMPY
    include_whole_network_in_numpy_output_mode := false
    include_metastasis_network_in_numpy_output_mode := false }

/-- A concrete binary whole-lesion mask on a 1 × 1 × 2 volume. -/
def wholeMaskExample : SpatialVol 1 1 2 ℕ := fun _ _ di => if di = 0 then 1 else 0

/-- A concrete binary enhancing-lesion mask on a 1 × 1 × 2 volume. -/
def enhancingMaskExample : SpatialVol 1 1 2 ℕ := fun _ _ _ => 1

/-- Claim C1: with TTA enabled, the ensemble output equals the sum of exactly
13 sliding-window passes divided by 13 — the pass on the unmodified volume,
plus, for each of the 4 rounds, one pass on the freshly noised volume of that
round and, for each of the two tested axes (torch dims 2 and 3), one pass on
that noised volume flipped along the axis whose output is flipped back along
the same axis before being added; every contribution has weight 1, and the
accumulation counter ends at 13. -/
theorem tta_ensemble_is_thirteen_pass_average {b c c2 h w d : ℕ} {K : Type} [Field K]
    (run : Tensor5 b c h w d K → Tensor5 b c2 h w d K)
    (noisy : ℕ → Tensor5 b c h w d K)
    (inputs : Tensor5 b c h w d K) :
    applyTestTimeAugmentations run noisy (run inputs)
      = scalarDiv
          (run inputs
            + (run (noisy 0)
                + flipDims [2] (run (flipDims [2] (noisy 0)))
                + flipDims [3] (run (flipDims [3] (noisy 0))))
            + (run (noisy 1)
                + flipDims [2] (run (flipDims [2] (noisy 1)))
                + flipDims [3] (run (flipDims [3] (noisy 1))))
            + (run (noisy 2)
                + flipDims [2] (run (flipDims [2] (noisy 2)))
                + flipDims [3] (run (flipDims [3] (noisy 2))))
            + (run (noisy 3)
                + flipDims [2] (run (flipDims [2] (noisy 3)))
                + flipDims [3] (run (flipDims [3] (noisy 3)))))
          13
      ∧ (ttaFold run noisy (run inputs)).2 = 13 := by
  constructor
  · simp only [applyTestTimeAugmentations, ttaFold, ttaRound, List.range_succ,
      List.range_zero, List.nil_append, List.cons_append, List.foldl_append,
      List.foldl_cons, List.foldl_nil]
    funext bi ci hi wi di
    simp only [scalarDiv, Pi.add_apply]
    ring_nf
  · simp only [ttaFold, ttaRound, List.range_succ, List.range_zero,
      List.nil_append, List.cons_append, List.foldl_append, List.foldl_cons,
      List.foldl_nil]
    norm_num

/-- Claim C2: for every pair of binary whole-lesion and enhancing-lesion
masks, the merged segmentation assigns each voxel exactly one of 0, 1, 2;
wherever the enhancing mask is 1 the segmentation is 2 regardless of the
whole-lesion mask, and wherever the enhancing mask is 0 the segmentation
equals the whole-lesion mask value. -/
theorem merge_rule_invariant {h w d : ℕ}
    (whole_metastasis enhancing_metastasis : SpatialVol h w d ℕ)
    (hwb : ∀ hi wi di, whole_metastasis hi wi di = 0 ∨ whole_metastasis hi wi di = 1)
    (heb : ∀ hi wi di, enhancing_metastasis hi wi di = 0 ∨ enhancing_metastasis hi wi di = 1) :
    ∀ hi wi di,
      (mergeSegmentation whole_metastasis enhancing_metastasis hi wi di = 0 ∨
        mergeSegmentation whole_metastasis enhancing_metastasis hi wi di = 1 ∨
        mergeSegmentation whole_metastasis enhancing_metastasis hi wi di = 2) ∧
      (enhancing_metastasis hi wi di = 1 →
        mergeSegmentation whole_metastasis enhancing_metastasis hi wi di = 2) ∧
      (enhancing_metastasis hi wi di = 0 →
        mergeSegmentation whole_metastasis enhancing_metastasis hi wi di
          = whole_metastasis hi wi di) := by
  intro hi wi di
  rcases hwb hi wi di with hw | hw <;> rcases heb hi wi di with he | he <;>
    simp [mergeSegmentation, hw, he]

/-- Witness for claim C2 at the concrete 1 × 1 × 2 example masks. -/
theorem merge_rule_invariant_witness :
    (∀ hi wi di, wholeMaskExample hi wi di = 0 ∨ wholeMaskExample hi wi di = 1) ∧
    (∀ hi wi di, enhancingMaskExample hi wi di = 0 ∨ enhancingMaskExample hi wi di = 1) ∧
    ∀ hi wi di,
      (mergeSegmentation wholeMaskExample enhancingMaskExample hi wi di = 0 ∨
        mergeSegmentation wholeMaskExample enhancingMaskExample hi wi di = 1 ∨
        mergeSegmentation wholeMaskExample enhancingMaskExample hi wi di = 2) ∧
      (enhancingMaskExample hi wi di = 1 →
        mergeSegmentation wholeMaskExample enhancingMaskExample hi wi di = 2) ∧
      (enhancingMaskExample hi wi di = 0 →
        mergeSegmentation wholeMaskExample enhancingMaskExample hi wi di
          = wholeMaskExample hi wi di) :=
  ⟨by decide, by decide,
    merge_rule_invariant wholeMaskExample enhancingMaskExample (by decide) (by decide)⟩

/-- Claim C3: on one inferer instance, a call whose resolved mode differs from
the currently loaded one performs exactly one weight reload; a consecutive
second call resolving to the same mode keeps the cached model handle unchanged
and performs no reload; a consecutive second call resolving to a different
mode performs exactly one reload. -/
theorem model_cache_reuse_and_reload {M : Type} [DecidableEq M]
    (s : InfererModelState M) (m m2 : M)
    (hprev : s.inference_mode ≠ some m) (hne : m ≠ m2) :
    ((inferModelStep s m).load_count = s.load_count + 1 ∧
      (inferModelStep s m).model = some (s.load_count + 1)) ∧
    ((inferModelStep (inferModelStep s m) m).model = (inferModelStep s m).model ∧
      (inferModelStep (inferModelStep s m) m).load_count
        = (inferModelStep s m).load_count) ∧
    (inferModelStep (inferModelStep s m) m2).load_count
      = (inferModelStep s m).load_count + 1 := by
  have h1 : inferModelStep s m
      = { inference_mode := some m, model := some (s.load_count + 1),
          load_count := s.load_count + 1 } := by
    simp [inferModelStep, hprev]
  refine ⟨⟨?_, ?_⟩, ⟨?_, ?_⟩, ?_⟩ <;>
    (rw [h1]; try simp [inferModelStep, hne])

/-- Witness for claim C3 on a fresh instance (no mode loaded yet) and the
distinct modes 0 and 1 over M = ℕ. -/
theorem model_cache_reuse_and_reload_witness :
    ((⟨none, none, 0⟩ : InfererModelState ℕ).inference_mode ≠ some 0 ∧ (0 : ℕ) ≠ 1) ∧
    ((inferModelStep (⟨none, none, 0⟩ : InfererModelState ℕ) 0).load_count
        = (⟨none, none, 0⟩ : InfererModelState ℕ).load_count + 1 ∧
      (inferModelStep (⟨none, none, 0⟩ : InfererModelState ℕ) 0).model
        = some ((⟨none, none, 0⟩ : InfererModelState ℕ).load_count + 1)) ∧
    ((inferModelStep (inferModelStep (⟨none, none, 0⟩ : InfererModelState ℕ) 0) 0).model
        = (inferModelStep (⟨none, none, 0⟩ : InfererModelState ℕ) 0).model ∧
      (inferModelStep (inferModelStep (⟨none, none, 0⟩ : InfererModelState ℕ) 0) 0).load_count
        = (inferModelStep (⟨none, none, 0⟩ : InfererModelState ℕ) 0).load_count) ∧
    (inferModelStep (inferModelStep (⟨none, none, 0⟩ : InfererModelState ℕ) 0) 1).load_count
      = (inferModelStep (⟨none, none, 0⟩ : InfererModelState ℕ) 0).load_count + 1 :=
  ⟨⟨by decide, by decide⟩,
    model_cache_reuse_and_reload (⟨none, none, 0⟩ : InfererModelState ℕ) 0 1
      (by decide) (by decide)⟩

/-- Claim C4, counterexample: with T1 and T1C both supplied, the current
AuroraInferer._save_as_nifti takes the first supplied channel, T1, while the
claimed priority (T1C if present, else FLAIR, else T1) would pick T1C. -/
theorem reference_channel_priority_counterexample :
    referenceChannelCurrent ⟨true, true, false, false⟩ = some Channel.t1 ∧
    referenceChannelSpec ⟨true, true, false, false⟩ = some Channel.t1c ∧
    some Channel.t1 ≠ some Channel.t1c :=
  ⟨rfl, rfl, by decide⟩

/-- Claim C4 as amended: the legacy GPUInferer/CPUInferer try/except chain
realises the fixed priority T1C if present, else FLAIR, else T1, for every
combination of present channels; the current AuroraInferer._save_as_nifti
instead uses the first present channel in the fixed order T1, T1C, T2,
FLAIR. -/
theorem reference_channel_priority_amended :
    (∀ p : ChannelPresence, referenceChannelLegacy p = referenceChannelSpec p) ∧
    (∀ p : ChannelPresence,
      referenceChannelCurrent p
        = if p.t1 then some Channel.t1
          else if p.t1c then some Channel.t1c
          else if p.t2 then some Channel.t2
          else if p.fla then some Channel.fla
          else none) := by
  constructor
  · intro p
    rfl
  · rintro ⟨a, b, c, e⟩
    cases a <;> cases b <;> cases c <;> cases e <;> rfl

/-- Claim C6, counterexample: +inf is not finite, yet np.nan_to_num with
default arguments does not replace it with zero but with the largest finite
float32 value. -/
theorem nan_to_num_counterexample :
    isFiniteValue NpValue.posinf = false ∧ nanToNum NpValue.posinf ≠ 0 := by
  refine ⟨rfl, ?_⟩
  norm_num [nanToNum, float32Max]

/-- Claim C6 as amended: during preprocessing, before percentile rescaling,
every NaN in each present channel is replaced with zero, every +inf with the
largest finite float32 value, every -inf with the lowest finite float32
value, and finite values are unchanged; the replacement runs on the values
the rescaling then receives. -/
theorem nan_to_num_amended :
    nanToNum NpValue.nan = 0 ∧
    nanToNum NpValue.posinf = float32Max ∧
    nanToNum NpValue.neginf = -float32Max ∧
    (∀ x : ℚ, nanToNum (NpValue.finite x) = x) ∧
    ∀ (rescale : List ℚ → List ℚ) (vals : List NpValue),
      preprocessTransforms rescale vals = rescale (vals.map nanToNum) :=
  ⟨rfl, rfl, rfl, fun _ => rfl, fun _ _ => rfl⟩

/-- Claim C7: when no weight artifact exists for the resolved key, the raise
statement of AuroraInferer._get_model evaluates an f-string reading
self.mode, an attribute that is never assigned on the class, so the call
fails with AttributeError — not with the intended "No weights found"
NotImplementedError. -/
theorem get_model_missing_weights_attribute_error :
    getModelLoad auroraInfererAttrs false
      = Except.error (PyError.attributeError "mode") ∧
    ∀ msg : String,
      (Except.error (PyError.attributeError "mode") : Except PyError Unit)
        ≠ Except.error (PyError.notImplementedError msg) := by
  refine ⟨rfl, ?_⟩
  intro msg h
  injection h with h2
  exact PyError.noConfusion h2

/-- Claim C8: an infer call in file output mode with no segmentation
destination does not reach the default-filename fallback: the per-run log
path defaults to ".", whose dirname is "", and os.makedirs("") raises
FileNotFoundError during logger setup, aborting the call. -/
theorem infer_without_segmentation_file_crashes :
    inferCall DataMode.NIFTI_FILE none
      = Except.error (PyError.fileNotFoundError "") := by
  rfl

/-- The logistic activation is at least one half exactly on the nonnegative
raw outputs. -/
theorem half_le_sigmoid {x : ℝ} (hx : 0 ≤ x) : (1 / 2 : ℝ) ≤ sigmoid x := by
  have hexp : Real.exp (-x) ≤ 1 := by
    have h0 : Real.exp (-x) ≤ Real.exp 0 := Real.exp_le_exp.mpr (by linarith)
    simpa using h0
  have hpos : (0 : ℝ) < 1 + Real.exp (-x) := by positivity
  rw [sigmoid, div_le_div_iff₀ (by norm_num) hpos]
  linarith

/-- Claim C5, counterexample: with all four channels, TTA off, threshold 0.5
and a mock forward pass returning the constants 0.6 (whole class) and 0.3
(enhancing class), the pipeline applies a sigmoid before thresholding;
sigmoid 0.3 ≥ 0.5 makes the enhancing mask 1, so the segmentation voxel is 2,
not the claimed 1. -/
theorem constant_scenario_counterexample :
    (slidingWindowInferenceStep testConfigNoTTA (mockConstForward 0.6 0.3)
        (fun _ => zeroTensor) zeroTensor).segmentation 0 0 0 = 2 ∧
    (2 : ℕ) ≠ 1 := by
  refine ⟨?_, by decide⟩
  have h6 : (0.5 : ℝ) ≤ sigmoid 0.6 := by
    have h := half_le_sigmoid (x := 0.6) (by norm_num)
    linarith
  have h3 : (0.5 : ℝ) ≤ sigmoid 0.3 := by
    have h := half_le_sigmoid (x := 0.3) (by norm_num)
    linarith
  simp [slidingWindowInferenceStep, testConfigNoTTA, postProcess, mergeSegmentation,
    mockConstForward, zeroTensor, h3, h6]

/-- Claim C5 as amended: in the same scenario (all four channels, TTA off,
constants 0.6 and 0.3, threshold 0.5) the produced segmentation is uniformly
label 2 at every voxel, because the raw constants pass through the sigmoid
before thresholding and both sigmoid 0.6 and sigmoid 0.3 are at least 0.5. -/
theorem constant_scenario_uniform_label_two :
    ∀ (hi wi di : Fin 1),
      (slidingWindowInferenceStep testConfigNoTTA (mockConstForward 0.6 0.3)
          (fun _ => zeroTensor) zeroTensor).segmentation hi wi di = 2 := by
  intro hi wi di
  have h6 : (0.5 : ℝ) ≤ sigmoid 0.6 := by
    have h := half_le_sigmoid (x := 0.6) (by norm_num)
    linarith
  have h3 : (0.5 : ℝ) ≤ sigmoid 0.3 := by
    have h := half_le_sigmoid (x := 0.3) (by norm_num)
    linarith
  simp [slidingWindowInferenceStep, testConfigNoTTA, postProcess, mergeSegmentation,
    mockConstForward, zeroTensor, h3, h6]

/-- Mapping a projection over a filterMap whose kept elements all project to
the same value yields a constant list. -/
theorem map_filterMap_constant {A B C : Type} (g : A → Option B) (proj : B → C)
    (v : C) (hconst : ∀ a b, g a = some b → proj b = v) :
    ∀ l : List A,
      (l.filterMap g).map proj = List.replicate (l.filterMap g).length v := by
  intro l
  induction l with
  | nil => simp
  | cons a t ih =>
      cases hg : g a with
      | none => simp [List.filterMap_cons, hg, ih]
      | some bb =>
          simp [List.filterMap_cons, hg, ih, hconst a bb hg, List.replicate_succ]

/-- Claim C9: with in-memory (NumPy) input and file output, every written
volume carries the affine np.eye(4) — the 4 × 4 identity matrix — and no
header, and the warning about the default geometry is logged. -/
theorem numpy_input_file_output_identity_affine {D : Type}
    (refGeometry : Matrix (Fin 4) (Fin 4) ℚ × Option String)
    (postproc_data : List (Output × D))
    (output_file_mapping : Output → Option String) :
    ((saveAsNifti DataMode.NUMPY refGeometry postproc_data output_file_mapping).written.map
        (fun pr => (pr.2.affine, pr.2.header))
      = List.replicate
          (saveAsNifti DataMode.NUMPY refGeometry postproc_data output_file_mapping).written.length
          (npEye4, (none : Option String))) ∧
    npEye4 = (1 : Matrix (Fin 4) (Fin 4) ℚ) ∧
    (saveAsNifti DataMode.NUMPY refGeometry postproc_data output_file_mapping).warnings
      = ["Writing NIFTI output after NumPy input, using default affine=np.eye(4) and header=None"] := by
  refine ⟨?_, ?_, rfl⟩
  · simp only [saveAsNifti]
    apply map_filterMap_constant
    intro kd img hsome
    cases hmap : output_file_mapping kd.1 with
    | none => rw [hmap] at hsome; cases hsome
    | some output_file =>
        rw [hmap] at hsome
        cases hsome
        rfl
  · ext i j
    simp [npEye4, Matrix.one_apply]

/-- Claim C10: with TTA disabled, inference is deterministic — two calls on
equal input volumes with the same forward-pass function and configuration
produce identical post-processed results (segmentation, whole mask and
enhancing mask), whatever noise the augmentation oracle would have drawn in
either call. -/
theorem inference_deterministic_without_tta {c h w d : ℕ}
    (cfg : AuroraInfererConfig) (htta : cfg.tta = false)
    (run : Tensor5 1 c h w d ℝ → Tensor5 1 2 h w d ℝ)
    (noisy1 noisy2 : ℕ → Tensor5 1 c h w d ℝ)
    (inputs1 inputs2 : Tensor5 1 c h w d ℝ) (hin : inputs1 = inputs2) :
    slidingWindowInferenceStep cfg run noisy1 inputs1
      = slidingWindowInferenceStep cfg run noisy2 inputs2 := by
  subst hin
  simp [slidingWindowInferenceStep, htta]

/-- Witness for claim C10 with the identity forward pass on a two-channel
volume, two different noise oracles, and the TTA-disabled configuration. -/
theorem inference_deterministic_without_tta_witness :
    testConfigNoTTA.tta = false ∧
    (zeroTensor : Tensor5 1 2 1 1 1 ℝ) = (zeroTensor : Tensor5 1 2 1 1 1 ℝ) ∧
    slidingWindowInferenceStep testConfigNoTTA
        (fun v : Tensor5 1 2 1 1 1 ℝ => v)
        (fun _ => (zeroTensor : Tensor5 1 2 1 1 1 ℝ)) zeroTensor
      = slidingWindowInferenceStep testConfigNoTTA
        (fun v : Tensor5 1 2 1 1 1 ℝ => v)
        (fun _ => (fun _ _ _ _ _ => (1 : ℝ) : Tensor5 1 2 1 1 1 ℝ)) zeroTensor :=
  ⟨rfl, rfl,
    inference_deterministic_without_tta testConfigNoTTA rfl
      (fun v : Tensor5 1 2 1 1 1 ℝ => v)
      (fun _ => (zeroTensor : Tensor5 1 2 1 1 1 ℝ))
      (fun _ => (fun _ _ _ _ _ => (1 : ℝ) : Tensor5 1 2 1 1 1 ℝ))
      zeroTensor zeroTensor rfl⟩

end Aurora
